import Mathlib

/-!
Verification of the Presentation Processing Pipeline of
`gemini-powerpoint-sage` against its natural-language specification.

Each definition below is a shallow embedding of a function of the Python
source (file and line references in the doc comments).  External effects
(file system, generative-capability calls, raised exceptions) are made
explicit as data: a call's behaviour is an input to the embedded function,
and the embedded function returns what the Python function would return
together with the observable effects (counters of capability invocations,
sleep durations, file-system contents).
-/

namespace PPSage

/-! ## Retry executor (`src/utils/error_handling.py`, `RetryStrategy.execute`) -/

/-- Defaults of `src/config/constants.py`, class `ProcessingConfig`. -/
def ProcessingConfig.MAX_RETRIES : Nat := 3

/-- `RETRY_DELAY: float = 2.0` of `src/config/constants.py`. -/
def ProcessingConfig.RETRY_DELAY : ℚ := 2

/-- `RETRY_BACKOFF_MULTIPLIER: float = 2.0` of `src/config/constants.py`. -/
def ProcessingConfig.RETRY_BACKOFF_MULTIPLIER : ℚ := 2

/-- Behaviour of one invocation of the wrapped operation `func`:
it returns a value (`ret`, possibly Python `None`, hence `Option`),
raises an exception of one of the configured types caught by
`except self.exceptions` (`raiseCaught`), or raises an exception outside
the configured tuple, which `execute` does not catch (`raiseUncaught`). -/
inductive OpCall (α : Type) where
  | ret (v : Option α)
  | raiseCaught
  | raiseUncaught
  deriving DecidableEq

/-- One run of `RetryStrategy.execute`: the returned value (`Except.error`
models an uncaught exception propagating), the number of invocations of
`func` actually performed, and the list of back-off sleep durations in
order.  `fuel` is the number of attempts remaining and `k` the current
value of the Python loop variable `attempt`; the loop body sleeps
`base_delay * backoff_multiplier ** attempt` only when
`attempt < max_retries - 1` (i.e. `fuel > 1`), and falling off the loop
returns `None` (error_handling.py lines 56-87). -/
def RetryStrategy.executeFrom {α : Type} (base mult : ℚ) (op : Nat → OpCall α) :
    Nat → Nat → Except Unit (Option α) × Nat × List ℚ
  | 0, _ => (Except.ok none, 0, [])
  | fuel + 1, k =>
    match op k with
    | OpCall.ret v => (Except.ok v, 1, [])
    | OpCall.raiseUncaught => (Except.error (), 1, [])
    | OpCall.raiseCaught =>
      if fuel = 0 then
        (Except.ok none, 1, [])
      else
        let r := RetryStrategy.executeFrom base mult op fuel (k + 1)
        (r.1, r.2.1 + 1, base * mult ^ k :: r.2.2)

/-- `RetryStrategy.execute(func, ...)` with `max_retries = maxRetries`,
`base_delay = base`, `backoff_multiplier = mult`; the behaviour of the
`attempt`-th invocation of `func` is `op attempt`. -/
def RetryStrategy.execute {α : Type} (maxRetries : Nat) (base mult : ℚ)
    (op : Nat → OpCall α) : Except Unit (Option α) × Nat × List ℚ :=
  RetryStrategy.executeFrom base mult op maxRetries 0

/-- When every attempt raises a caught exception, `execute` performs
exactly `fuel` invocations, returns `None`, and sleeps
`base * mult ^ attempt` after each non-final attempt. -/
theorem RetryStrategy.executeFrom_allFail {α : Type} (base mult : ℚ)
    (op : Nat → OpCall α) (hop : ∀ j, op j = OpCall.raiseCaught) :
    ∀ fuel k, RetryStrategy.executeFrom base mult op fuel k =
      (Except.ok none, fuel,
        (List.range (fuel - 1)).map (fun i => base * mult ^ (k + i))) := by
  intro fuel
  induction fuel with
  | zero => intro k; rfl
  | succ f ih =>
    intro k
    unfold RetryStrategy.executeFrom
    rw [hop k]
    by_cases hf : f = 0
    · subst hf; simp
    · obtain ⟨m, rfl⟩ := Nat.exists_eq_succ_of_ne_zero hf
      simp only [Nat.succ_ne_zero, if_false, ih (k + 1)]
      simp only [Nat.succ_sub_one, List.range_succ_eq_map, List.map_cons,
        List.map_map, Prod.mk.injEq, true_and]
      have hhead : base * mult ^ (k + 0) = base * mult ^ k := by norm_num
      rw [hhead]
      congr 1
      apply List.map_congr_left
      intro i _
      simp only [Function.comp_apply]
      have he : k + 1 + i = k + (i + 1) := by omega
      rw [he]

/-- C4. Retry executor bound and backoff: an operation that raises a
configured exception on every attempt is invoked exactly `maxRetries`
times (the `ProcessingConfig` default being 3), the sleeps between
consecutive attempts are `base * mult ^ attempt` and are non-decreasing
for `mult ≥ 1` (and non-negative base delay), and the final result is the
not-ok value `None` rather than a propagated exception. -/
theorem retry_bound_and_backoff {α : Type} (maxRetries : Nat) (base mult : ℚ)
    (op : Nat → OpCall α) (hop : ∀ j, op j = OpCall.raiseCaught)
    (hbase : 0 ≤ base) (hmult : 1 ≤ mult) :
    RetryStrategy.execute maxRetries base mult op =
      (Except.ok none, maxRetries,
        (List.range (maxRetries - 1)).map (fun i => base * mult ^ i)) ∧
    List.Pairwise (fun a b => a ≤ b)
      ((List.range (maxRetries - 1)).map (fun i => base * mult ^ i)) ∧
    ProcessingConfig.MAX_RETRIES = 3 := by
  refine ⟨?_, ?_, rfl⟩
  · rw [RetryStrategy.execute,
      RetryStrategy.executeFrom_allFail base mult op hop maxRetries 0]
    simp
  · rw [List.pairwise_map]
    apply (List.pairwise_lt_range _).imp
    intro i j hij
    exact mul_le_mul_of_nonneg_left (pow_le_pow_right₀ hmult hij.le) hbase

/-- Witness for C4 at the default configuration (3 attempts, base delay 2,
multiplier 2) and an always-failing operation. -/
theorem retry_bound_and_backoff_witness :
    RetryStrategy.execute 3 (2 : ℚ) 2 (fun _ => (OpCall.raiseCaught : OpCall Nat)) =
      (Except.ok none, 3,
        (List.range (3 - 1)).map (fun i => (2 : ℚ) * 2 ^ i)) ∧
    List.Pairwise (fun a b => a ≤ b)
      ((List.range (3 - 1)).map (fun i => (2 : ℚ) * 2 ^ i)) ∧
    ProcessingConfig.MAX_RETRIES = 3 :=
  retry_bound_and_backoff 3 2 2 (fun _ => OpCall.raiseCaught) (fun _ => rfl)
    (by norm_num) (by norm_num)

/-- C10. `RetryStrategy.execute` retries only on raised exceptions of the
configured types: an operation that returns on its first invocation —
even returning `None` — is invoked exactly once with no backoff sleeps,
and its `None` result is indistinguishable from the `None` produced by
exhausting all retries. -/
theorem retry_no_retry_on_return {α : Type} (maxRetries : Nat) (base mult : ℚ)
    (op : Nat → OpCall α) (v : Option α) (hn : 1 ≤ maxRetries)
    (h0 : op 0 = OpCall.ret v) :
    RetryStrategy.execute maxRetries base mult op = (Except.ok v, 1, []) ∧
    (v = none →
      (RetryStrategy.execute maxRetries base mult op).1 =
      (RetryStrategy.execute maxRetries base mult
        (fun _ => (OpCall.raiseCaught : OpCall α))).1) := by
  obtain ⟨f, rfl⟩ := Nat.exists_eq_add_of_le hn
  have hexec : RetryStrategy.execute (1 + f) base mult op = (Except.ok v, 1, []) := by
    rw [RetryStrategy.execute]
    have : 1 + f = f + 1 := by omega
    rw [this]
    unfold RetryStrategy.executeFrom
    rw [h0]
  refine ⟨hexec, ?_⟩
  intro hv
  rw [hexec, RetryStrategy.execute, RetryStrategy.executeFrom_allFail base mult _
    (fun _ => rfl) (1 + f) 0, hv]

/-- Witness for C10: an operation returning `None` immediately, with
3 attempts configured. -/
theorem retry_no_retry_on_return_witness :
    RetryStrategy.execute 3 (2 : ℚ) 2 (fun _ => (OpCall.ret (none : Option Nat))) =
      (Except.ok none, 1, []) ∧
    ((none : Option Nat) = none →
      (RetryStrategy.execute 3 (2 : ℚ) 2 (fun _ => (OpCall.ret (none : Option Nat)))).1 =
      (RetryStrategy.execute 3 (2 : ℚ) 2
        (fun _ => (OpCall.raiseCaught : OpCall Nat))).1) :=
  retry_no_retry_on_return 3 2 2 (fun _ => OpCall.ret none) none
    (by norm_num) rfl

/-! ## Progress ledger (`src/utils/progress_utils.py`) -/

/-- One ledger entry, the value stored under a slide key in the progress
file (shape documented in the spec and written at
presentation_processor.py lines 259-265). -/
structure LedgerEntry where
  slide_index : Nat
  existing_notes_hash : String
  original_notes : String
  note : String
  status : String
  deriving DecidableEq

/-- The parsed progress ledger: a slide map plus the optional cached
global context. -/
structure Ledger where
  slides : List (String × LedgerEntry)
  global_context : Option String
  deriving DecidableEq

/-- The ledger `load_progress` returns for a missing or corrupt file:
`{"slides": {}}`. -/
def emptyLedger : Ledger := { slides := [], global_context := none }

/-- What the file system yields when `load_progress` opens `path`:
the file is absent (`os.path.exists` false), present but `json.load`
raises (any exception, caught at progress_utils.py line 31), or present
and parsed to a ledger `p`. -/
inductive LoadOutcome where
  | missing
  | unparsable
  | parsed (p : Ledger)

/-- `load_progress(path)` (progress_utils.py lines 15-33): a missing file
returns the empty structure, a parse failure is caught and returns the
empty structure, otherwise the parsed data is returned.  The Lean
function is total: no outcome raises. -/
def load_progress : LoadOutcome → Ledger
  | LoadOutcome.missing => emptyLedger
  | LoadOutcome.unparsable => emptyLedger
  | LoadOutcome.parsed p => p

/-- Failure points inside the `try` of `save_progress`
(progress_utils.py lines 46-60): `tempfile.mkstemp` raising, the
`json.dump` into the temp file raising, or the atomic `os.replace`
raising.  All are caught by the same `except` which only logs. -/
inductive SaveFailure where
  | mkstemp
  | dump
  | replace
  deriving DecidableEq

/-- `save_progress(path, data)` modelled as a transition on the content
of the target file (`none` = file absent).  The data is written to a
fresh temp file in the target directory and `os.replace` renames it over
the target, so the target either keeps its old content (any failure,
caught and logged) or holds the complete new data; no partial state is
representable, which is the atomicity the temp-file-plus-rename scheme
provides. -/
def save_progress : Option SaveFailure → Option Ledger → Ledger → Option Ledger
  | none, _, data => some data
  | some _, old, _ => old

/-- C8. Ledger I/O is never fatal: loading a missing or corrupt file
yields the empty ledger (and `load_progress` is total, never an error);
a parsed file is returned as is; saving is a no-op on any write failure
and installs exactly the new data otherwise, so the target file after a
save is always either its old content or the complete new content. -/
theorem ledger_io_never_fatal :
    load_progress LoadOutcome.missing = emptyLedger ∧
    load_progress LoadOutcome.unparsable = emptyLedger ∧
    (∀ p, load_progress (LoadOutcome.parsed p) = p) ∧
    (∀ fail old data, save_progress (some fail) old data = old) ∧
    (∀ old data, save_progress none old data = some data) ∧
    (∀ fail old data, save_progress fail old data = old ∨
      save_progress fail old data = some data) := by
  refine ⟨rfl, rfl, fun _ => rfl, fun _ _ _ => rfl, fun _ _ => rfl, ?_⟩
  intro fail old data
  cases fail with
  | none => exact Or.inr rfl
  | some f => exact Or.inl rfl

/-! ## Notes pipeline, Phase 1
(`src/services/presentation_processor.py`, `_process_slide_notes`) -/

/-- Python's `str.strip()` (no argument): remove leading and trailing
whitespace.  Defined by structural recursion on the character list so
that concrete instances evaluate inside the kernel. -/
def pyStrip (s : String) : String :=
  String.mk
    (((s.data.dropWhile Char.isWhitespace).reverse.dropWhile Char.isWhitespace).reverse)

/-- Behaviour of one iteration of the supervisor retry loop
(presentation_processor.py lines 776-844): either the
`supervisor_runner.run` event loop completes and the accumulated text is
`text` (`ok`), or it raises (`exn`) leaving the partially accumulated
text `partialText` in `final_response`.  `lastWriter` is the value the
side channel `tool_factory.last_writer_output` holds right after the
attempt (empty string when no writer call succeeded). -/
inductive GenAttempt where
  | ok (text : String) (lastWriter : String)
  | exn (partialText : String)
  deriving DecidableEq

/-- Result of the generation stage: the returned `(final_response,
status)` pair, the number of supervisor-workflow invocations performed,
and whether the returned text came from the last-writer-output side
channel. -/
structure GenResult where
  finalResponse : String
  status : String
  calls : Nat
  substituted : Bool
  deriving DecidableEq

/-- The body of the retry loop for its last iteration
(`attempt = max_retries - 1`): a non-empty stripped response or a
non-empty last-writer fallback yields `success`; an empty response with
no fallback, or an exception, yields `error`
(presentation_processor.py lines 795-844). -/
def finalAttempt : GenAttempt → GenResult
  | GenAttempt.ok t w =>
    if pyStrip t = "" then
      if w = "" then { finalResponse := pyStrip t, status := "error", calls := 1, substituted := false }
      else { finalResponse := w, status := "success", calls := 1, substituted := true }
    else { finalResponse := pyStrip t, status := "success", calls := 1, substituted := false }
  | GenAttempt.exn p => { finalResponse := p, status := "error", calls := 1, substituted := false }

/-- The body of the retry loop for a non-last iteration: the same two
`success` exits, but an empty response with no fallback, or an
exception, sleeps and falls through to the next iteration (`rest`). -/
def earlyAttempt : GenAttempt → GenResult → GenResult
  | GenAttempt.ok t w, rest =>
    if pyStrip t = "" then
      if w = "" then { finalResponse := rest.finalResponse, status := rest.status,
                       calls := rest.calls + 1, substituted := rest.substituted }
      else { finalResponse := w, status := "success", calls := 1, substituted := true }
    else { finalResponse := pyStrip t, status := "success", calls := 1, substituted := false }
  | GenAttempt.exn _, rest =>
    { finalResponse := rest.finalResponse, status := rest.status,
      calls := rest.calls + 1, substituted := rest.substituted }

/-- The whole `for attempt in range(max_retries)` loop of
`_process_slide_notes` with its hardcoded `max_retries = 3`
(presentation_processor.py lines 773-846); `att k` is the behaviour of
the `k`-th iteration. -/
def runGenerate (att : Nat → GenAttempt) : GenResult :=
  earlyAttempt (att 0) (earlyAttempt (att 1) (finalAttempt (att 2)))

/-- An iteration that neither returns text nor offers a fallback: the
loop does not break on it (other than with `error` on the last
iteration). -/
def attemptDead : GenAttempt → Bool
  | GenAttempt.ok t w => decide (pyStrip t = "") && decide (w = "")
  | GenAttempt.exn _ => true

/-- `entry.get("note", "")` on the optional ledger entry. -/
def entryNote : Option LedgerEntry → String
  | some e => e.note
  | none => ""

/-- `entry and entry.get("status") == "success"`. -/
def entryIsSuccess : Option LedgerEntry → Bool
  | some e => decide (e.status = "success")
  | none => false

/-- Inputs of one `_process_slide_notes` call, with every external
effect explicit: `language` is `config.language`; `hasTranslator` is the
truthiness of `translator_agent`; `englishNote` is
`english_notes.get(slide_idx)` (`none` also covers an empty
`english_notes` dict); `entry` is the current ledger entry for the
slide key; `retryErrors` is the force-retry flag; `translatorRaw` is
what `run_stateless_agent(translator_agent, ...)` inside
`_translate_notes` produces (`none` models an exception or a `None`
result); `attempts` drives the supervisor retry loop. -/
structure NotesEnv where
  language : String
  hasTranslator : Bool
  englishNote : Option String
  retryErrors : Bool
  entry : Option LedgerEntry
  translatorRaw : Option String
  attempts : Nat → GenAttempt

/-- Observable outcome of `_process_slide_notes`: the returned
`(final_response, status)` pair, the number of `_translate_notes`
capability calls, the number of generation workflows started
(`genRuns`, 0 when the stage exits on the memoized ledger entry), the
number of supervisor invocations inside such a workflow, and whether the
returned text came from the last-writer side channel. -/
structure NotesResult where
  finalResponse : String
  status : String
  translateCalls : Nat
  genRuns : Nat
  supervisorCalls : Nat
  substituted : Bool
  deriving DecidableEq

/-- `_translate_notes` result (presentation_processor.py lines 883-948)
under `hasTranslator = true`: the translation succeeds iff the agent
returned text with non-empty strip. -/
def translationOk (env : NotesEnv) : Bool :=
  match env.translatorRaw with
  | some s => if pyStrip s = "" then false else true
  | none => false

/-- The non-translation tail of `_process_slide_notes` (lines 749-846):
return the memoized note verbatim when the ledger entry is `success` and
force-retry is unset, otherwise run the supervisor generation loop.
`tc` is the number of translation calls already performed. -/
def genStage (env : NotesEnv) (tc : Nat) : NotesResult :=
  if entryIsSuccess env.entry = true ∧ env.retryErrors = false then
    { finalResponse := entryNote env.entry, status := "success",
      translateCalls := tc, genRuns := 0, supervisorCalls := 0, substituted := false }
  else
    let g := runGenerate env.attempts
    { finalResponse := g.finalResponse, status := g.status, translateCalls := tc,
      genRuns := 1, supervisorCalls := g.calls, substituted := g.substituted }

/-- `_process_slide_notes` (presentation_processor.py lines 688-846).
Translation mode is entered when the locale is not `"en"`, a translator
is configured, and an English note exists for the slide; inside it, a
`success` ledger entry with force-retry unset whose note differs from
the English note is returned verbatim (already translated); otherwise
`_translate_notes` is called once, a successful translation is returned,
and a failed one falls through to the generation stage. -/
def process_slide_notes (env : NotesEnv) : NotesResult :=
  match env.englishNote with
  | some en =>
    if env.language ≠ "en" ∧ env.hasTranslator = true then
      if entryIsSuccess env.entry = true ∧ env.retryErrors = false ∧
          entryNote env.entry ≠ en then
        { finalResponse := entryNote env.entry, status := "success",
          translateCalls := 0, genRuns := 0, supervisorCalls := 0, substituted := false }
      else
        match env.translatorRaw with
        | some s =>
          if pyStrip s = "" then genStage env 1
          else { finalResponse := pyStrip s, status := "success", translateCalls := 1,
                 genRuns := 0, supervisorCalls := 0, substituted := false }
        | none => genStage env 1
    else genStage env 0
  | none => genStage env 0

/-- C5 counterexample.  A slide in translation mode whose `success`
ledger entry stores a note equal to the English source note verbatim:
although the `(index, existingNotes)` key is unchanged, the entry is
`success` and force-retry is unset, `_process_slide_notes` calls the
translator once (the already-translated guard at
presentation_processor.py lines 718-731 fires only when the stored note
differs from the English note) and returns the fresh translation, not
the stored note. -/
theorem notes_idempotence_counterexample :
    (process_slide_notes
      { language := "fr", hasTranslator := true, englishNote := some "hello",
        retryErrors := false,
        entry := some { slide_index := 1, existing_notes_hash := "h",
                        original_notes := "", note := "hello", status := "success" },
        translatorRaw := some "bonjour",
        attempts := fun _ => GenAttempt.exn "" }).translateCalls = 1 ∧
    (process_slide_notes
      { language := "fr", hasTranslator := true, englishNote := some "hello",
        retryErrors := false,
        entry := some { slide_index := 1, existing_notes_hash := "h",
                        original_notes := "", note := "hello", status := "success" },
        translatorRaw := some "bonjour",
        attempts := fun _ => GenAttempt.exn "" }).finalResponse = "bonjour" := by
  constructor <;> decide

/-- C5 (amended).  Idempotence of note processing: a slide with an
unchanged ledger key, a `success` ledger entry and force-retry unset is
returned verbatim from the ledger with zero capability calls, provided
the already-translated guard does not force a retranslation — i.e.
whenever the slide is not in translation mode with a stored note equal
to the English source note. -/
theorem notes_idempotence_amended (env : NotesEnv) (e : LedgerEntry)
    (he : env.entry = some e) (hs : e.status = "success")
    (hr : env.retryErrors = false)
    (hguard : ∀ en, env.englishNote = some en → env.language ≠ "en" →
      env.hasTranslator = true → e.note ≠ en) :
    process_slide_notes env =
      { finalResponse := e.note, status := "success", translateCalls := 0,
        genRuns := 0, supervisorCalls := 0, substituted := false } := by
  have hsucc : entryIsSuccess env.entry = true := by
    rw [he]; simp [entryIsSuccess, hs]
  have hnote : entryNote env.entry = e.note := by rw [he]; rfl
  unfold process_slide_notes
  cases hen : env.englishNote with
  | none =>
    dsimp only
    unfold genStage
    rw [if_pos ⟨hsucc, hr⟩, hnote]
  | some en =>
    dsimp only
    by_cases hmode : env.language ≠ "en" ∧ env.hasTranslator = true
    · rw [if_pos hmode, if_pos ⟨hsucc, hr, hnote ▸ hguard en hen hmode.1 hmode.2⟩,
        hnote]
    · rw [if_neg hmode]
      unfold genStage
      rw [if_pos ⟨hsucc, hr⟩, hnote]

/-- Witness for C5 (amended): source-locale processing of a slide with a
memoized `success` entry. -/
theorem notes_idempotence_amended_witness :
    process_slide_notes
      { language := "en", hasTranslator := true, englishNote := none,
        retryErrors := false,
        entry := some { slide_index := 2, existing_notes_hash := "h2",
                        original_notes := "old", note := "stored note",
                        status := "success" },
        translatorRaw := none,
        attempts := fun _ => GenAttempt.exn "" } =
      { finalResponse := "stored note", status := "success", translateCalls := 0,
        genRuns := 0, supervisorCalls := 0, substituted := false } :=
  notes_idempotence_amended _ _ rfl rfl rfl (by intro en hen; simp at hen)

/-- C6 counterexample.  A slide under a target locale with a `success`
English source note, whose current ledger entry is `success` with a note
that differs from the English note: the pipeline calls neither
`Translate` nor the `Draft` workflow (it returns the memoized
translation), contradicting the claim that such a slide always gets a
`Translate` call. -/
theorem translation_first_counterexample :
    (process_slide_notes
      { language := "fr", hasTranslator := true, englishNote := some "hello",
        retryErrors := false,
        entry := some { slide_index := 1, existing_notes_hash := "h",
                        original_notes := "", note := "bonjour", status := "success" },
        translatorRaw := some "ignored",
        attempts := fun _ => GenAttempt.exn "" }).translateCalls = 0 ∧
    (process_slide_notes
      { language := "fr", hasTranslator := true, englishNote := some "hello",
        retryErrors := false,
        entry := some { slide_index := 1, existing_notes_hash := "h",
                        original_notes := "", note := "bonjour", status := "success" },
        translatorRaw := some "ignored",
        attempts := fun _ => GenAttempt.exn "" }).genRuns = 0 := by
  constructor <;> decide

/-- C6 (amended).  Translation-first policy with the already-translated
guard: under a target locale with an existing English source note, when
the current ledger entry is not a `success` entry (with force-retry
unset) holding a note different from the source note, the pipeline calls
`Translate` exactly once and starts no `Draft` workflow unless that
translation fails; on translation failure it returns the memoized note
(zero `Draft` workflows) when a `success` entry with force-retry unset
exists, and otherwise starts the `Draft` workflow exactly once. -/
theorem translation_first_amended (env : NotesEnv) (en : String)
    (hl : env.language ≠ "en") (ht : env.hasTranslator = true)
    (hen : env.englishNote = some en)
    (hguard : ¬(entryIsSuccess env.entry = true ∧ env.retryErrors = false ∧
      entryNote env.entry ≠ en)) :
    (process_slide_notes env).translateCalls = 1 ∧
    (translationOk env = true →
      (process_slide_notes env).genRuns = 0 ∧
      (process_slide_notes env).supervisorCalls = 0 ∧
      (process_slide_notes env).status = "success") ∧
    (translationOk env = false →
      (entryIsSuccess env.entry = true ∧ env.retryErrors = false →
        (process_slide_notes env).genRuns = 0 ∧
        (process_slide_notes env).supervisorCalls = 0 ∧
        (process_slide_notes env).finalResponse = entryNote env.entry) ∧
      (¬(entryIsSuccess env.entry = true ∧ env.retryErrors = false) →
        (process_slide_notes env).genRuns = 1)) := by
  have hproc : process_slide_notes env =
      match env.translatorRaw with
      | some s =>
        if pyStrip s = "" then genStage env 1
        else { finalResponse := pyStrip s, status := "success", translateCalls := 1,
               genRuns := 0, supervisorCalls := 0, substituted := false }
      | none => genStage env 1 := by
    unfold process_slide_notes
    rw [hen]
    simp only [if_pos (And.intro hl ht), if_neg hguard]
  cases htr : env.translatorRaw with
  | none =>
    rw [hproc, htr]
    dsimp only
    have hok : translationOk env = false := by rw [translationOk, htr]
    rw [hok]
    unfold genStage
    by_cases hc : entryIsSuccess env.entry = true ∧ env.retryErrors = false
    · rw [if_pos hc]
      refine ⟨rfl, ?_, ?_⟩
      · intro h; exact absurd h (by decide)
      · intro _
        exact ⟨fun _ => ⟨rfl, rfl, rfl⟩, fun hnc => absurd hc hnc⟩
    · rw [if_neg hc]
      refine ⟨rfl, ?_, ?_⟩
      · intro h; exact absurd h (by decide)
      · intro _
        exact ⟨fun hcc => absurd hcc hc, fun _ => rfl⟩
  | some s =>
    rw [hproc, htr]
    dsimp only
    have hok : translationOk env = (if pyStrip s = "" then false else true) := by
      rw [translationOk, htr]
    by_cases hstrip : pyStrip s = ""
    · rw [if_pos hstrip, hok, if_pos hstrip]
      unfold genStage
      by_cases hc : entryIsSuccess env.entry = true ∧ env.retryErrors = false
      · rw [if_pos hc]
        refine ⟨rfl, ?_, ?_⟩
        · intro h; exact absurd h (by decide)
        · intro _
          exact ⟨fun _ => ⟨rfl, rfl, rfl⟩, fun hnc => absurd hc hnc⟩
      · rw [if_neg hc]
        refine ⟨rfl, ?_, ?_⟩
        · intro h; exact absurd h (by decide)
        · intro _
          exact ⟨fun hcc => absurd hcc hc, fun _ => rfl⟩
    · rw [if_neg hstrip, hok, if_neg hstrip]
      refine ⟨rfl, ?_, ?_⟩
      · intro _; exact ⟨rfl, rfl, rfl⟩
      · intro h; exact absurd h (by decide)

/-- Witness for C6 (amended): a target-locale slide with an English note,
no ledger entry, and a working translator. -/
theorem translation_first_amended_witness :
    (process_slide_notes
      { language := "fr", hasTranslator := true, englishNote := some "hello",
        retryErrors := false, entry := none, translatorRaw := some "bonjour",
        attempts := fun _ => GenAttempt.exn "" }).translateCalls = 1 ∧
    (process_slide_notes
      { language := "fr", hasTranslator := true, englishNote := some "hello",
        retryErrors := false, entry := none, translatorRaw := some "bonjour",
        attempts := fun _ => GenAttempt.exn "" }).genRuns = 0 ∧
    (process_slide_notes
      { language := "fr", hasTranslator := true, englishNote := some "hello",
        retryErrors := false, entry := none, translatorRaw := some "bonjour",
        attempts := fun _ => GenAttempt.exn "" }).status = "success" := by
  have h := translation_first_amended
    { language := "fr", hasTranslator := true, englishNote := some "hello",
      retryErrors := false, entry := none, translatorRaw := some "bonjour",
      attempts := fun _ => GenAttempt.exn "" } "hello"
    (by decide) rfl rfl (by simp [entryIsSuccess])
  exact ⟨h.1, (h.2.1 (by decide)).1, (h.2.1 (by decide)).2.2⟩

/-- C7 counterexample.  A first attempt that yields empty text while the
last-writer side channel holds `"partial"`: the fallback is substituted
immediately on that non-final attempt, the loop breaks after a single
supervisor invocation, and the slide is recorded `success` — not
substituted only on the final attempt, and not followed by an `ERROR`
status. -/
theorem empty_fallback_counterexample :
    runGenerate (fun k => if k = 0 then GenAttempt.ok "" "partial"
      else GenAttempt.exn "") =
      { finalResponse := "partial", status := "success", calls := 1,
        substituted := true } := by
  decide

/-- C7 (amended).  Empty-response fallback: on any attempt — not only the
final one — that yields empty stripped text, a non-empty last-writer
partial output is substituted and the slide is recorded `success`; a
substituted result always carries status `success`; and status `error`
is recorded exactly when every one of the three attempts either raised
or yielded empty text with no non-empty partial output available. -/
theorem empty_fallback_amended (att : Nat → GenAttempt) :
    ((runGenerate att).status = "error" ↔
      attemptDead (att 0) = true ∧ attemptDead (att 1) = true ∧
      attemptDead (att 2) = true) ∧
    ((runGenerate att).substituted = true → (runGenerate att).status = "success") ∧
    (∀ t w, att 0 = GenAttempt.ok t w → pyStrip t = "" → w ≠ "" →
      runGenerate att =
        { finalResponse := w, status := "success", calls := 1,
          substituted := true }) := by
  have hfin : ∀ a, (finalAttempt a).status = "error" ↔ attemptDead a = true := by
    intro a
    cases a with
    | ok t w =>
      by_cases h1 : pyStrip t = "" <;> by_cases h2 : w = "" <;>
        simp [finalAttempt, attemptDead, h1, h2]
    | exn p => simp [finalAttempt, attemptDead]
  have hfinsub : ∀ a, (finalAttempt a).substituted = true →
      (finalAttempt a).status = "success" := by
    intro a
    cases a with
    | ok t w =>
      by_cases h1 : pyStrip t = "" <;> by_cases h2 : w = "" <;>
        simp [finalAttempt, h1, h2]
    | exn p => simp [finalAttempt]
  have hearly : ∀ a rest, ((earlyAttempt a rest).status = "error" ↔
      attemptDead a = true ∧ rest.status = "error") ∧
      ((earlyAttempt a rest).substituted = true →
        (earlyAttempt a rest).status = "success" ∨
        ((earlyAttempt a rest).status = rest.status ∧
         (earlyAttempt a rest).substituted = rest.substituted)) := by
    intro a rest
    cases a with
    | ok t w =>
      by_cases h1 : pyStrip t = "" <;> by_cases h2 : w = "" <;>
        simp [earlyAttempt, attemptDead, h1, h2]
    | exn p => simp [earlyAttempt, attemptDead]
  refine ⟨?_, ?_, ?_⟩
  · rw [runGenerate, (hearly (att 0) _).1, (hearly (att 1) _).1,
      hfin (att 2)]
  · intro hsub
    rcases (hearly (att 0) _).2 hsub with h | ⟨hst, hsub1⟩
    · exact h
    · rw [runGenerate, hst]
      rcases (hearly (att 1) _).2 (by rw [← hsub1, ← runGenerate]; exact hsub)
        with h | ⟨hst2, hsub2⟩
      · exact h
      · rw [hst2]
        exact hfinsub (att 2) (by rw [← hsub2, ← hsub1, ← runGenerate]; exact hsub)
  · intro t w h0 hstrip hw
    rw [runGenerate, h0]
    simp [earlyAttempt, hstrip, hw]

/-- Witness for C7 (amended): the characterisation applied to a run whose
first attempt yields empty text with a non-empty partial output. -/
theorem empty_fallback_amended_witness :
    runGenerate (fun _ => GenAttempt.ok " " "saved draft") =
      { finalResponse := "saved draft", status := "success", calls := 1,
        substituted := true } :=
  (empty_fallback_amended (fun _ => GenAttempt.ok " " "saved draft")).2.2
    " " "saved draft" rfl (by decide) (by decide)

/-! ## Archive preserver (`src/utils/pptx_utils.py`, `restore_vba_project`) -/

/-- Raw bytes of a zip entry. -/
abbrev Bytes := List Nat

/-- One `Relationship` element of `presentation.xml.rels` with its
`Id`, `Type` and `Target` attributes. -/
structure RelEntry where
  id : String
  type : String
  target : String
  deriving DecidableEq

/-- Content of one entry of a PPTX zip archive.  Binary and XML parts
the patcher does not interpret are `bin`; the two XML descriptors the
patcher parses with `ElementTree` are kept structured: the list of
`Override/@PartName` attributes of `[Content_Types].xml` and the list of
`Relationship` elements of `presentation.xml.rels`. -/
inductive PartContent where
  | bin (data : Bytes)
  | ctypes (overrides : List String)
  | rels (entries : List RelEntry)
  deriving DecidableEq

/-- A zip archive: internal path to content, first binding wins. -/
abbrev Archive := List (String × PartContent)

/-- Lookup of an internal path in an archive (zip namelist lookup /
`os.path.exists` on the extracted tree). -/
def zfind : Archive → String → Option PartContent
  | [], _ => none
  | (p, c) :: rest, q => if p = q then some c else zfind rest q

/-- Write a file into the extracted tree, replacing an existing entry at
that path or creating a new one. -/
def zset : Archive → String → PartContent → Archive
  | [], q, v => [(q, v)]
  | (p, c) :: rest, q, v =>
    if p = q then (q, v) :: rest else (p, c) :: zset rest q v

/-- `'ppt/vbaProject.bin'`, the macro binary part. -/
def vbaPath : String := "ppt/vbaProject.bin"

/-- `'[Content_Types].xml'`. -/
def ctypesPath : String := "[Content_Types].xml"

/-- `'ppt/_rels/presentation.xml.rels'`. -/
def relsPath : String := "ppt/_rels/presentation.xml.rels"

/-- The `PartName` attribute of the override the patcher adds. -/
def vbaPartName : String := "/ppt/vbaProject.bin"

/-- The relationship `Type` the patcher looks for and adds. -/
def vbaRelType : String :=
  "http://schemas.microsoft.com/office/2006/relationships/vbaProject"

/-- The relationship element added when none with `vbaRelType` exists
(pptx_utils.py lines 147-152). -/
def vbaRel : RelEntry :=
  { id := "rIdVBA1", type := vbaRelType, target := "vbaProject.bin" }

/-- Patch `[Content_Types].xml` (pptx_utils.py lines 108-124): when the
file is absent, skip; when present and already carrying the
`/ppt/vbaProject.bin` override, leave it untouched; otherwise append the
override and rewrite the file.  `none` models `ET.parse` raising on a
file that is not the expected XML. -/
def patchCtypes (tree : Archive) : Option Archive :=
  match zfind tree ctypesPath with
  | none => some tree
  | some (PartContent.ctypes ovs) =>
    if vbaPartName ∈ ovs then some tree
    else some (zset tree ctypesPath (PartContent.ctypes (ovs ++ [vbaPartName])))
  | some _ => none

/-- Patch `ppt/_rels/presentation.xml.rels` (pptx_utils.py lines
126-152): when the file is absent a minimal relationships root is
created; a relationship of type `vbaRelType` is appended unless one is
already present, in which case nothing is rewritten. -/
def patchRels (tree : Archive) : Option Archive :=
  match zfind tree relsPath with
  | none => some (zset tree relsPath (PartContent.rels [vbaRel]))
  | some (PartContent.rels rs) =>
    if rs.any (fun r => decide (r.type = vbaRelType)) then some tree
    else some (zset tree relsPath (PartContent.rels (rs ++ [vbaRel])))
  | some _ => none

/-- The in-scratch-directory patching of `restore_vba_project`
(pptx_utils.py lines 102-152): write the macro bytes at
`ppt/vbaProject.bin` (overwriting the extracted entry if any), then
patch the content-type descriptor, then the relationship descriptor. -/
def patchTree (vba : Bytes) (tree : Archive) : Option Archive :=
  match patchCtypes (zset tree vbaPath (PartContent.bin vba)) with
  | none => none
  | some t1 => patchRels t1

/-- Injection points for an exception inside `restore_vba_project`:
opening/reading the source archive (lines 83-87), `extractall` of the
generated archive (lines 99-100), parsing/rewriting
`[Content_Types].xml` (lines 109-124), parsing/rewriting
`presentation.xml.rels` (lines 126-152), or the final re-zip into
`final_path` (lines 160-165). -/
inductive RepackStep where
  | openOriginal
  | extractGenerated
  | patchContentTypes
  | patchRelationships
  | repack
  deriving DecidableEq

/-- What the file at `final_path` holds afterwards: a readable archive,
or a truncated zip left by a repack that died after opening the output
for writing. -/
inductive ZipState where
  | intact (a : Archive)
  | corrupt
  deriving DecidableEq

/-- Post-state of the two files `restore_vba_project` touches:
the content at `final_path` (`none` = no file) and the content at
`generated_pptx` (`none` = deleted or moved away). -/
structure ArchiveFs where
  finalFile : Option ZipState
  generatedFile : Option Archive
  deriving DecidableEq

/-- `restore_vba_project(original_src, generated_pptx, final_path)`
(pptx_utils.py lines 72-183) with `original_src` holding `orig`,
`generated_pptx` holding `gen`, `final_path` initially holding
`finalPre`, and `generated_pptx ≠ final_path`.  `fail` injects at most
one exception.  Key control flow: an exception while reading the source
archive reaches the outer handler while `generated_pptx` still exists,
so the fallback move succeeds; an empty or missing macro part takes the
plain-move branch; an exception after the scratch directory exists
(extract or either patch) triggers the `finally` cleanup, which deletes
`generated_pptx` (line 171-172) *before* the outer fallback move runs,
so the move raises `FileNotFoundError`, is swallowed (line 182-183), and
`final_path` keeps its previous content; an exception during the re-zip
leaves a truncated archive at `final_path`; on success the patched tree
is written to `final_path` and `generated_pptx` is deleted. -/
def restore_vba_project (fail : Option RepackStep) (orig gen : Archive)
    (finalPre : Option ZipState) : ArchiveFs :=
  if fail = some RepackStep.openOriginal then
    { finalFile := some (ZipState.intact gen), generatedFile := none }
  else
    match zfind orig vbaPath with
    | some (PartContent.bin b) =>
      if b = [] then
        { finalFile := some (ZipState.intact gen), generatedFile := none }
      else if fail = some RepackStep.extractGenerated ∨
          fail = some RepackStep.patchContentTypes ∨
          fail = some RepackStep.patchRelationships then
        { finalFile := finalPre, generatedFile := none }
      else
        match patchTree b gen with
        | none => { finalFile := finalPre, generatedFile := none }
        | some t =>
          if fail = some RepackStep.repack then
            { finalFile := some ZipState.corrupt, generatedFile := none }
          else
            { finalFile := some (ZipState.intact t), generatedFile := none }
    | _ =>
      { finalFile := some (ZipState.intact gen), generatedFile := none }

/-- C2. An exception injected while patching `[Content_Types].xml`, for
a source archive that does contain macro bytes: afterwards there is no
archive at `final_path` at all and the generated archive has been
deleted — the slide content is lost, not preserved by a fallback move as
the specification states.  The `finally` cleanup removes
`generated_pptx` before the outer fallback move runs. -/
theorem archive_patch_failure_loses_content :
    restore_vba_project (some RepackStep.patchContentTypes)
      [(vbaPath, PartContent.bin [1, 2, 3])]
      [(ctypesPath, PartContent.ctypes []),
       ("ppt/slides/slide1.xml", PartContent.bin [9, 9])]
      none =
      { finalFile := none, generatedFile := none } := by
  decide

/-- Looking up the path just written returns the written content. -/
theorem zfind_zset_self (a : Archive) (p : String) (v : PartContent) :
    zfind (zset a p v) p = some v := by
  induction a with
  | nil => simp [zset, zfind]
  | cons hd tl ih =>
    obtain ⟨q, c⟩ := hd
    by_cases h : q = p
    · simp [zset, zfind, h]
    · simp [zset, zfind, h, ih]

/-- Writing one path leaves lookups of other paths unchanged. -/
theorem zfind_zset_ne (a : Archive) (p q : String) (v : PartContent)
    (h : p ≠ q) : zfind (zset a p v) q = zfind a q := by
  induction a with
  | nil => simp [zset, zfind, h]
  | cons hd tl ih =>
    obtain ⟨r, c⟩ := hd
    by_cases hr : r = p
    · subst hr; simp [zset, zfind, h]
    · simp [zset, zfind, hr, ih]

/-- Rewriting a path with the content it already holds is the
identity. -/
theorem zset_eq_of_zfind (a : Archive) (p : String) (v : PartContent)
    (h : zfind a p = some v) : zset a p v = a := by
  induction a with
  | nil => simp [zfind] at h
  | cons hd tl ih =>
    obtain ⟨r, c⟩ := hd
    by_cases hr : r = p
    · subst hr
      simp [zfind] at h
      simp [zset, h]
    · simp [zfind, hr] at h
      simp [zset, hr, ih h]

/-- The content-type descriptor already registers the macro part. -/
def ctypesPatched (a : Archive) : Prop :=
  match zfind a ctypesPath with
  | none => True
  | some (PartContent.ctypes ovs) => vbaPartName ∈ ovs
  | some _ => False

/-- The relationship descriptor already carries a vbaProject
relationship. -/
def relsPatched (a : Archive) : Prop :=
  match zfind a relsPath with
  | none => False
  | some (PartContent.rels rs) => rs.any (fun r => decide (r.type = vbaRelType)) = true
  | some _ => False

theorem patchCtypes_post (tree t : Archive) (h : patchCtypes tree = some t) :
    ctypesPatched t := by
  unfold patchCtypes at h
  cases hf : zfind tree ctypesPath with
  | none =>
    rw [hf] at h
    dsimp only at h
    cases h
    unfold ctypesPatched
    rw [hf]
    dsimp only
  | some c =>
    rw [hf] at h
    cases c with
    | bin d => dsimp only at h; cases h
    | rels rs => dsimp only at h; cases h
    | ctypes ovs =>
      dsimp only at h
      by_cases hmem : vbaPartName ∈ ovs
      · rw [if_pos hmem] at h
        cases h
        unfold ctypesPatched
        rw [hf]
        exact hmem
      · rw [if_neg hmem] at h
        cases h
        unfold ctypesPatched
        rw [zfind_zset_self]
        dsimp only
        simp

theorem patchCtypes_of_patched (t : Archive) (h : ctypesPatched t) :
    patchCtypes t = some t := by
  unfold ctypesPatched at h
  unfold patchCtypes
  cases hf : zfind t ctypesPath with
  | none => rfl
  | some c =>
    rw [hf] at h
    cases c with
    | bin d => dsimp only at h
    | rels rs => dsimp only at h
    | ctypes ovs =>
      dsimp only at h
      dsimp only
      rw [if_pos h]

theorem patchRels_post (tree t : Archive) (h : patchRels tree = some t) :
    relsPatched t := by
  unfold patchRels at h
  cases hf : zfind tree relsPath with
  | none =>
    rw [hf] at h
    dsimp only at h
    cases h
    unfold relsPatched
    rw [zfind_zset_self]
    dsimp only
    simp [vbaRel]
  | some c =>
    rw [hf] at h
    cases c with
    | bin d => dsimp only at h; cases h
    | ctypes ovs => dsimp only at h; cases h
    | rels rs =>
      dsimp only at h
      by_cases hmem : rs.any (fun r => decide (r.type = vbaRelType)) = true
      · rw [if_pos hmem] at h
        cases h
        unfold relsPatched
        rw [hf]
        exact hmem
      · rw [if_neg hmem] at h
        cases h
        unfold relsPatched
        rw [zfind_zset_self]
        dsimp only
        simp [vbaRel]

theorem patchRels_of_patched (t : Archive) (h : relsPatched t) :
    patchRels t = some t := by
  unfold relsPatched at h
  unfold patchRels
  cases hf : zfind t relsPath with
  | none => rw [hf] at h; dsimp only at h
  | some c =>
    rw [hf] at h
    cases c with
    | bin d => dsimp only at h
    | ctypes ovs => dsimp only at h
    | rels rs =>
      dsimp only at h
      dsimp only
      rw [if_pos h]

/-- `patchCtypes` touches only the `[Content_Types].xml` entry. -/
theorem patchCtypes_find_other (tree t : Archive) (q : String)
    (hq : ctypesPath ≠ q) (h : patchCtypes tree = some t) :
    zfind t q = zfind tree q := by
  unfold patchCtypes at h
  cases hf : zfind tree ctypesPath with
  | none => rw [hf] at h; dsimp only at h; cases h; rfl
  | some c =>
    rw [hf] at h
    cases c with
    | bin d => dsimp only at h; cases h
    | rels rs => dsimp only at h; cases h
    | ctypes ovs =>
      dsimp only at h
      by_cases hmem : vbaPartName ∈ ovs
      · rw [if_pos hmem] at h; cases h; rfl
      · rw [if_neg hmem] at h
        cases h
        exact zfind_zset_ne tree ctypesPath q _ hq

/-- `patchRels` touches only the `presentation.xml.rels` entry. -/
theorem patchRels_find_other (tree t : Archive) (q : String)
    (hq : relsPath ≠ q) (h : patchRels tree = some t) :
    zfind t q = zfind tree q := by
  unfold patchRels at h
  cases hf : zfind tree relsPath with
  | none =>
    rw [hf] at h
    dsimp only at h
    cases h
    exact zfind_zset_ne tree relsPath q _ hq
  | some c =>
    rw [hf] at h
    cases c with
    | bin d => dsimp only at h; cases h
    | ctypes ovs => dsimp only at h; cases h
    | rels rs =>
      dsimp only at h
      by_cases hmem : rs.any (fun r => decide (r.type = vbaRelType)) = true
      · rw [if_pos hmem] at h; cases h; rfl
      · rw [if_neg hmem] at h
        cases h
        exact zfind_zset_ne tree relsPath q _ hq

/-- A successful `patchTree` leaves exactly the macro bytes at
`ppt/vbaProject.bin`, and patching the result again changes nothing
(the content-type override and the vbaProject relationship are not
duplicated). -/
theorem patchTree_fidelity_idem (vba : Bytes) (tree t : Archive)
    (h : patchTree vba tree = some t) :
    zfind t vbaPath = some (PartContent.bin vba) ∧ patchTree vba t = some t := by
  unfold patchTree at h
  cases hc : patchCtypes (zset tree vbaPath (PartContent.bin vba)) with
  | none => rw [hc] at h; cases h
  | some t1 =>
    rw [hc] at h
    have hvba1 : zfind t1 vbaPath = some (PartContent.bin vba) := by
      rw [patchCtypes_find_other _ _ _ (by decide) hc]
      exact zfind_zset_self tree vbaPath _
    have hvba : zfind t vbaPath = some (PartContent.bin vba) := by
      rw [patchRels_find_other _ _ _ (by decide) h]
      exact hvba1
    refine ⟨hvba, ?_⟩
    have hset : zset t vbaPath (PartContent.bin vba) = t :=
      zset_eq_of_zfind t vbaPath _ hvba
    have hcp1 : ctypesPatched t1 := patchCtypes_post _ _ hc
    have hcp : ctypesPatched t := by
      unfold ctypesPatched at hcp1 ⊢
      rw [patchRels_find_other _ _ _ (by decide) h]
      exact hcp1
    have hrp : relsPatched t := patchRels_post _ _ h
    unfold patchTree
    rw [hset, patchCtypes_of_patched t hcp]
    exact patchRels_of_patched t hrp

/-- C3. Archive fidelity and idempotent patching: for a source archive
whose macro part holds bytes `b`, a fault-free `Preserve` that produced
the final archive `t` placed exactly `b` at `ppt/vbaProject.bin`, and
running `Preserve` a second time over `t` (which already carries the
content-type override and the vbaProject relationship) reproduces `t`
exactly — no duplicate `Override` or `Relationship` entry is added. -/
theorem archive_fidelity_and_idempotence (orig gen t : Archive) (b : Bytes)
    (hvba : zfind orig vbaPath = some (PartContent.bin b)) (hb : b ≠ [])
    (hrun : restore_vba_project none orig gen none =
      { finalFile := some (ZipState.intact t), generatedFile := none }) :
    zfind t vbaPath = some (PartContent.bin b) ∧
    (∀ pre2, restore_vba_project none orig t pre2 =
      { finalFile := some (ZipState.intact t), generatedFile := none }) := by
  have hpatch : patchTree b gen = some t := by
    unfold restore_vba_project at hrun
    rw [if_neg (by simp)] at hrun
    rw [hvba] at hrun
    dsimp only at hrun
    rw [if_neg hb, if_neg (by simp)] at hrun
    cases hp : patchTree b gen with
    | none => rw [hp] at hrun; cases hrun
    | some t0 =>
      rw [hp] at hrun
      dsimp only at hrun
      rw [if_neg (by simp)] at hrun
      cases hrun
      rfl
  obtain ⟨hfind, hidem⟩ := patchTree_fidelity_idem b gen t hpatch
  refine ⟨hfind, ?_⟩
  intro pre2
  unfold restore_vba_project
  rw [if_neg (by simp), hvba]
  dsimp only
  rw [if_neg hb, if_neg (by simp), hidem]
  dsimp only
  rw [if_neg (by simp)]

/-- Witness for C3: a 3-byte macro part injected into a fresh generated
archive, checked end to end on concrete data. -/
theorem archive_fidelity_and_idempotence_witness :
    zfind
      [(ctypesPath, PartContent.ctypes [vbaPartName]),
       ("ppt/slides/slide1.xml", PartContent.bin [9, 9]),
       (vbaPath, PartContent.bin [1, 2, 3]),
       (relsPath, PartContent.rels [vbaRel])]
      vbaPath = some (PartContent.bin [1, 2, 3]) ∧
    (∀ pre2, restore_vba_project none [(vbaPath, PartContent.bin [1, 2, 3])]
      [(ctypesPath, PartContent.ctypes [vbaPartName]),
       ("ppt/slides/slide1.xml", PartContent.bin [9, 9]),
       (vbaPath, PartContent.bin [1, 2, 3]),
       (relsPath, PartContent.rels [vbaRel])]
      pre2 =
      { finalFile := some (ZipState.intact
          [(ctypesPath, PartContent.ctypes [vbaPartName]),
           ("ppt/slides/slide1.xml", PartContent.bin [9, 9]),
           (vbaPath, PartContent.bin [1, 2, 3]),
           (relsPath, PartContent.rels [vbaRel])]),
        generatedFile := none }) :=
  archive_fidelity_and_idempotence
    [(vbaPath, PartContent.bin [1, 2, 3])]
    [(ctypesPath, PartContent.ctypes []),
     ("ppt/slides/slide1.xml", PartContent.bin [9, 9])]
    [(ctypesPath, PartContent.ctypes [vbaPartName]),
     ("ppt/slides/slide1.xml", PartContent.bin [9, 9]),
     (vbaPath, PartContent.bin [1, 2, 3]),
     (relsPath, PartContent.rels [vbaRel])]
    [1, 2, 3] (by decide) (by decide) (by decide)

/-! ## Visual pipeline, Phase 2
(`src/services/visual_generator.py` and
`src/services/presentation_processor.py`, `_phase_generate_visuals` /
`_save_outputs`) -/

/-- Inputs of one `VisualGenerator.generate_visual` call
(visual_generator.py lines 56-157) with every external effect explicit:
`skip` is `skip_generation`; `existingFile` is the content of the target
image path if it already exists; `readFails` — reading that existing
file raises; `forceFallback` is the `FORCE_FALLBACK_IMAGE_GEN` switch;
`primaryBytes` / `fallbackBytes` are what the designer agent and the
direct Imagen call produce (`none` = no bytes or an exception, both
logged and treated alike); `saveFails` — writing the generated bytes
raises; `decodeFails` — `Image.open` inside `_update_previous_image`
raises. -/
structure GenVisualEnv where
  skip : Bool
  existingFile : Option Bytes
  retryErrors : Bool
  readFails : Bool
  forceFallback : Bool
  primaryBytes : Option Bytes
  fallbackBytes : Option Bytes
  saveFails : Bool
  decodeFails : Bool

/-- The generation tail of `generate_visual` (visual_generator.py lines
102-157): primary designer call unless forced to fall back, Imagen
fallback when the primary produced nothing, then save and
`_update_previous_image` on success — and `previous_image = None` when
no image was generated (line 155).  Returns the `(img_bytes,
previous_image)` pair after the call, `prev` being `previous_image`
before it. -/
def genFresh (env : GenVisualEnv) (prev : Option Bytes) :
    Option Bytes × Option Bytes :=
  let primary := if env.forceFallback then none else env.primaryBytes
  let img := match primary with
    | some b => some b
    | none => env.fallbackBytes
  match img with
  | some b =>
    if env.saveFails then (some b, prev)
    else (some b, if env.decodeFails then none else some b)
  | none => (none, none)

/-- `VisualGenerator.generate_visual` (visual_generator.py lines
56-157): skip-visuals returns `None` leaving `previous_image` untouched;
an existing image with force-retry unset is read back and becomes the
new `previous_image` (a failed read falls through to regeneration);
otherwise the generation tail runs. -/
def generate_visual (env : GenVisualEnv) (prev : Option Bytes) :
    Option Bytes × Option Bytes :=
  if env.skip then (none, prev)
  else
    match env.existingFile with
    | some b =>
      if env.retryErrors = false then
        if env.readFails then genFresh env prev
        else (some b, if env.decodeFails then none else some b)
      else genFresh env prev
    | none => genFresh env prev

/-- C9 counterexample.  Slide 1 produces artifact `[1]`; slide 2
produces no artifact: afterwards `previous_image` is `None`, not the
most recently produced artifact `[1]` — the StyleContext is reset on
failure (visual_generator.py line 155), not carried forward. -/
theorem style_context_counterexample :
    (generate_visual
      { skip := false, existingFile := none, retryErrors := false,
        readFails := false, forceFallback := false, primaryBytes := none,
        fallbackBytes := none, saveFails := false, decodeFails := false }
      (generate_visual
        { skip := false, existingFile := none, retryErrors := false,
          readFails := false, forceFallback := false,
          primaryBytes := some [1], fallbackBytes := none,
          saveFails := false, decodeFails := false } none).2).2 = none ∧
    (generate_visual
      { skip := false, existingFile := none, retryErrors := false,
        readFails := false, forceFallback := false,
        primaryBytes := some [1], fallbackBytes := none,
        saveFails := false, decodeFails := false } none).1 = some [1] := by
  constructor <;> decide

/-- C9 (amended).  With skip-visuals unset and no save or decode
failure, after each `generate_visual` call `previous_image` equals
exactly the artifact returned by that call: the artifact itself on
success, and `None` — a reset, not the carried-over StyleContext — when
the slide produced no artifact. -/
theorem style_context_amended (env : GenVisualEnv) (prev : Option Bytes)
    (hskip : env.skip = false) (hsave : env.saveFails = false)
    (hdecode : env.decodeFails = false) :
    (generate_visual env prev).2 = (generate_visual env prev).1 := by
  cases hex : env.existingFile <;> by_cases hr : env.retryErrors = false <;>
    cases hrf : env.readFails <;> cases hpb : env.primaryBytes <;>
    cases hfb : env.fallbackBytes <;> cases hff : env.forceFallback <;>
    simp [generate_visual, genFresh, hskip, hsave, hdecode, hex, hr, hrf,
      hpb, hfb, hff]

/-- Witness for C9 (amended): a failing generation call resets the
context to `None`, equal to the returned (absent) artifact. -/
theorem style_context_amended_witness :
    (generate_visual
      { skip := false, existingFile := none, retryErrors := false,
        readFails := false, forceFallback := false, primaryBytes := none,
        fallbackBytes := none, saveFails := false, decodeFails := false }
      (some [5])).2 =
    (generate_visual
      { skip := false, existingFile := none, retryErrors := false,
        readFails := false, forceFallback := false, primaryBytes := none,
        fallbackBytes := none, saveFails := false, decodeFails := false }
      (some [5])).1 :=
  style_context_amended _ (some [5]) rfl rfl rfl

/-- Per-slide inputs of the Phase-2 loop
(presentation_processor.py lines 327-453): the slide's Phase-1 `status`;
whether the translate-visuals mode is active (non-English run with an
image translator and an existing English visuals directory, lines
298-325); whether an already-translated target image exists (line 349);
whether the English source image exists (line 360); what the image
translator produced; and what `generate_visual` returned. -/
structure SlideVisualEnv where
  status : String
  translateMode : Bool
  targetExists : Bool
  enExists : Bool
  translatedBytes : Option Bytes
  genBytes : Option Bytes
  deriving DecidableEq

/-- Whether one slide increments `missing_visuals_count`
(presentation_processor.py lines 335-452): a slide whose notes failed
counts as missing; a successful slide counts as missing only when it was
neither covered by the translation path nor produced bytes in direct
generation. -/
def slideMissing (s : SlideVisualEnv) : Nat :=
  if s.status = "success" then
    if s.translateMode = true ∧ (s.targetExists = true ∨
        (s.enExists = true ∧ s.translatedBytes.isSome = true)) then 0
    else if s.genBytes.isSome = true then 0 else 1
  else 1

/-- `_phase_generate_visuals` (presentation_processor.py lines 282-454):
the returned `missing_visuals_count` accumulated over the deck. -/
def phase_generate_visuals (slides : List SlideVisualEnv) : Nat :=
  (slides.map slideMissing).sum

/-- `_save_outputs` (presentation_processor.py lines 477-550): the
notes-only container is always saved at `notesOut`; the visuals
container is saved at `visualsOut` only when `missing = 0`, otherwise
the returned visuals path is `None` (line 548). -/
def save_outputs (notesOut visualsOut : String) (missing : Nat) :
    String × Option String :=
  (notesOut, if missing = 0 then some visualsOut else none)

/-- C1. All-or-nothing visuals: after Phase 2, the notes-only path
returned by `_save_outputs` is always the (non-null) notes output path;
the visuals-augmented path is non-null iff the missing-visual counter is
zero; and whenever at least one slide failed visual production (or its
notes failed), the visuals path returned is null. -/
theorem all_or_nothing_visuals (notesOut visualsOut : String)
    (slides : List SlideVisualEnv) :
    (save_outputs notesOut visualsOut (phase_generate_visuals slides)).1 =
      notesOut ∧
    ((save_outputs notesOut visualsOut (phase_generate_visuals slides)).2.isSome
      ↔ phase_generate_visuals slides = 0) ∧
    (∀ s ∈ slides, slideMissing s ≠ 0 →
      (save_outputs notesOut visualsOut (phase_generate_visuals slides)).2 =
        none) := by
  refine ⟨rfl, ?_, ?_⟩
  · unfold save_outputs
    by_cases hm : phase_generate_visuals slides = 0 <;> simp [hm]
  · intro s hs hmiss
    unfold save_outputs
    have hle : slideMissing s ≤ phase_generate_visuals slides := by
      unfold phase_generate_visuals
      exact List.single_le_sum (fun x _ => Nat.zero_le x) _
        (List.mem_map_of_mem slideMissing hs)
    have hne : phase_generate_visuals slides ≠ 0 := by omega
    simp [hne]

/-- Witness for C1: a one-slide deck whose notes failed — the visuals
path is null while the notes path is intact. -/
theorem all_or_nothing_visuals_witness :
    (save_outputs "deck_en_with_notes.pptx" "deck_en_with_visuals.pptx"
      (phase_generate_visuals
        [{ status := "error", translateMode := false, targetExists := false,
           enExists := false, translatedBytes := none, genBytes := none }])).1 =
      "deck_en_with_notes.pptx" ∧
    (save_outputs "deck_en_with_notes.pptx" "deck_en_with_visuals.pptx"
      (phase_generate_visuals
        [{ status := "error", translateMode := false, targetExists := false,
           enExists := false, translatedBytes := none, genBytes := none }])).2 =
      none := by
  have h := all_or_nothing_visuals "deck_en_with_notes.pptx"
    "deck_en_with_visuals.pptx"
    [{ status := "error", translateMode := false, targetExists := false,
       enExists := false, translatedBytes := none, genBytes := none }]
  exact ⟨h.1, h.2.2
    { status := "error", translateMode := false, targetExists := false,
      enExists := false, translatedBytes := none, genBytes := none }
    (by simp) (by decide)⟩

end PPSage
